import Mathlib

/-!
Verification of the dependency-graph build engine of the `quine` static-site
generator against its specification.

The embedding models `src/src/build.ts` (`buildSiteFromFile`, `buildFromPath`)
and the TypeScript content-type handler (`TypeScriptFile`, `tsToJs`).

Modelling conventions:
* A content node is identified by its absolute path string: the builder keys
  every decision on `file.path.toString()`, so the path string is the whole
  observable identity of a node at the builder's level.
* External collaborators (`file.write`, `file.dependencies`, the resolver
  `readFile`, `Path.join`, the filesystem, the TypeScript compiler) are opaque
  to the builder and are modelled as a `World` of functions.  `write` either
  succeeds or throws (a `Bool` per settings/path); `dependencies` either
  throws (`none`) or returns the ordered list of dependency paths (`some`).
* The JavaScript `Set` of seen paths is modelled as a `List String` into which
  the builder inserts only after a membership test, exactly as the source does;
  `console.error` calls are modelled as an append-only `LogEntry` trace.
* Exception propagation is modelled by an explicit `Bool` (`true` = the call
  threw); because the visited set is mutated in place in the source, the state
  is returned even when the call throws.
* The mutable `settings` object is threaded through the state
  (`BuildState.settings`); a source-level mutation of the configuration would
  show up as an update of that field.  The source never performs one.
* Recursion over a possibly-cyclic dependency graph is modelled with explicit
  fuel; running out of fuel returns the state unchanged without throwing.
  Theorems about termination show the result is fuel-independent once the fuel
  exceeds the number of nodes involved.
-/

namespace Quine

/-- Configuration structure (`PageSettings`), restricted to the fields the
build entry points read: `sourceDir`, `targetDir` and `ignorePaths`
(paths as strings, since the builder only ever uses `toString` of them). -/
structure PageSettings where
  sourceDir : String
  targetDir : String
  ignorePaths : List String
deriving DecidableEq, Repr

/-- One `console.error` event of `build.ts`, carrying the data interpolated
into the message. -/
inductive LogEntry where
  /-- `[build] Failed to write file ${file.path}` (line 21). -/
  | writeFailed (path : String)
  /-- `[build] Failed to get dependencies for ${file.path}` (line 39). -/
  | depsEnumFailed (path : String)
  /-- `[build] Failed to build dependency ${dep.path} of ${file.path}` (line 31). -/
  | depFailed (depPath : String) (parentPath : String)
  /-- `[build] Failed to write root index.html` (line 56). -/
  | rootWriteFailed
  /-- `[build] Failed to read source index.html at ...` (line 71). -/
  | readIndexFailed (path : String)
  /-- `[build] Build failed` (line 97). -/
  | buildFailed
deriving DecidableEq, Repr

/-- The mutable state of one build run: the visited set `filesSeenSoFar`
(insertion-ordered, inserted only when absent, hence a faithful model of the
JS `Set`), the chronological trace of `file.write` invocations, the
`console.error` trace, and the current contents of the `settings` object. -/
structure BuildState where
  visited : List String
  writes : List String
  logs : List LogEntry
  settings : PageSettings
deriving DecidableEq, Repr

/-- The external collaborators of `build.ts`, opaque to the builder:
`writeOk s p` tells whether `file.write(s)` succeeds for the node at path `p`
(`false` = it throws); `deps s p` is `none` when `file.dependencies(s)` throws
and otherwise the ordered list of dependency paths; `rootWriteOk` is the
outcome of the bootstrap `rootFile.writeString(...)`; `readFileOp` is the
resolver `readFile` returning the root node's path or absent; `pathJoin` is
`Path.join`. -/
structure World where
  writeOk : PageSettings → String → Bool
  deps : PageSettings → String → Option (List String)
  rootWriteOk : PageSettings → Bool
  readFileOp : String → PageSettings → Option String
  pathJoin : String → String → String

/-- The `dependencies.forEach` loop of `buildSiteFromFile` (lines 27-37):
run `step` (the recursive build) on each dependency in order; when a step
throws, catch, log the failing dependency's path together with the parent's
path, and continue with the remaining siblings.  The loop itself never
throws, which is why its result type carries no thrown flag. -/
def buildDeps (step : String → BuildState → BuildState × Bool)
    (parent : String) : List String → BuildState → BuildState
  | [], st => st
  | d :: rest, st =>
    let r := step d st
    buildDeps step parent rest
      (if r.2 then { r.1 with logs := r.1.logs ++ [LogEntry.depFailed d parent] } else r.1)

/-- Model of `buildSiteFromFile` (build.ts lines 10-42), with explicit fuel.
Line by line: return if the path is in `filesSeenSoFar` (15); add it (16);
invoke `write`, and on failure log and rethrow (18-23); invoke
`dependencies`, on failure log and continue with no dependencies (25-41);
otherwise recurse on each dependency through the catching loop (27-37).
Exhausted fuel returns the state unchanged without throwing (the source has
no such case; all theorems sensitive to it carry explicit fuel bounds). -/
def buildSiteFromFile (w : World) : Nat → String → BuildState → BuildState × Bool
  | 0, _, st => (st, false)
  | fuel + 1, file, st =>
    if file ∈ st.visited then (st, false)
    else
      let stV := { st with visited := st.visited ++ [file] }
      let stW := { stV with writes := stV.writes ++ [file] }
      if w.writeOk st.settings file then
        match w.deps st.settings file with
        | some ds => (buildDeps (buildSiteFromFile w fuel) file ds stW, false)
        | none => ({ stW with logs := stW.logs ++ [LogEntry.depsEnumFailed file] }, false)
      else
        ({ stW with logs := stW.logs ++ [LogEntry.writeFailed file] }, true)

/-- The initial visited set built by `buildFromPath` (build.ts lines 81-91),
in source order: the configured ignore paths, their `".html"`-suffixed
variants, the target directory itself, the hardcoded `.git`, `.direnv` and
`node_modules` directories under the source directory, and the `".html"` and
`"/index.html"` variants of the target directory. -/
def filePathsSeenSoFar (settings : PageSettings) : List String :=
  settings.ignorePaths
    ++ settings.ignorePaths.map (fun p => p ++ ".html")
    ++ [settings.targetDir,
        settings.sourceDir ++ "/.git",
        settings.sourceDir ++ "/.direnv",
        settings.sourceDir ++ "/node_modules",
        settings.targetDir ++ ".html",
        settings.targetDir ++ "/index.html"]

/-- The configuration the graph builder is run under: a fresh copy of
`settings` with `targetDir` retargeted to its `/source` subdirectory
(build.ts line 61, `const cfg = { ...settings, targetDir: targetDir.join("/source") }`). -/
def retargetedCfg (w : World) (settings : PageSettings) : PageSettings :=
  { settings with targetDir := w.pathJoin settings.targetDir "/source" }

/-- The builder state at the moment `buildSiteFromFile` is first invoked by
`buildFromPath` (line 94): the seeded visited set, empty traces, and the
retargeted configuration. -/
def initialBuildState (w : World) (settings : PageSettings) : BuildState :=
  { visited := filePathsSeenSoFar settings, writes := [], logs := [],
    settings := retargetedCfg w settings }

/-- Model of `buildFromPath` (build.ts lines 47-100): write the bootstrap
root `index.html` (fatal on failure, lines 50-58); build `cfg` as a fresh
copy of `settings` with `targetDir` retargeted to its `/source`
subdirectory (line 61); resolve the source `index.html` through the
resolver, fatal when absent (lines 65-73); seed the visited set (lines
81-91) and run the graph builder, logging and rethrowing its failure (lines
93-99).  The second component of the result is the final contents of the
`settings` argument, so that a mutation of the caller's configuration would
be observable. -/
def buildFromPath (w : World) (fuel : Nat) (settings : PageSettings) :
    (BuildState × Bool) × PageSettings :=
  if w.rootWriteOk settings then
    let indexPath := w.pathJoin settings.sourceDir "/index.html"
    match w.readFileOp indexPath (retargetedCfg w settings) with
    | none =>
      (({ visited := [], writes := [], logs := [LogEntry.readIndexFailed indexPath],
          settings := retargetedCfg w settings }, true), settings)
    | some dir =>
      let r := buildSiteFromFile w fuel dir (initialBuildState w settings)
      (if r.2 then ({ r.1 with logs := r.1.logs ++ [LogEntry.buildFailed] }, true) else r,
       settings)
  else
    (({ visited := [], writes := [], logs := [LogEntry.rootWriteFailed],
        settings := settings }, true), settings)

/-! ### Model of the TypeScript handler (`src/file/filetype/ts.ts`) -/

/-- The external collaborators of the TypeScript handler: the TypeScript
compiler (`ts.transpileModule(...).outputText` under the fixed ESNext
compiler options, opaque here) and the filesystem. -/
structure TSWorld where
  transpile : String → String
  fsExists : String → Bool
  fsRead : String → String

/-- A source content node as the TypeScript handler sees it, identified by
its path; its text is read lazily from the filesystem of a `TSWorld`. -/
structure SourceFile where
  path : String
deriving DecidableEq, Repr

/-- `SourceFile.text`: the node's text, read from the underlying file. -/
def SourceFile.text (w : TSWorld) (f : SourceFile) (cfg : PageSettings) : String :=
  w.fsRead f.path

/-- Model of `tsToJs`: transpile the source node's text with the TypeScript
compiler and return the output text. -/
def tsToJs (w : TSWorld) (tsFile : SourceFile) (cfg : PageSettings) : String :=
  w.transpile (tsFile.text w cfg)

/-- Modelled from the spec: the derivation mechanism replaces the source
location's extension with the target extension (§4.3, "`location` is the
source's location with its extension replaced by `targetExtension`"); the
implementation (`src/utils/path`) is not under src/.  Everything after the
last dot is replaced by the target extension. -/
def replaceExtension (path ext : String) : String :=
  String.mk ((path.toList.reverse.dropWhile (fun c => c != '.')).reverse) ++ ext

/-- A derived ("virtual") content node: its content is computed lazily by a
transform of the source node, and it keeps a provenance link to the source. -/
structure DerivedFile where
  location : String
  content : Unit → String
  derivedFrom : SourceFile

/-- Modelled from the spec: `wrapFile` (imported from `src/file/classes/utils`,
which is not under src/) is the derivation mechanism of §4.3 — it produces a
node whose location carries the target extension, whose content-reading
operation lazily invokes `transform(sourceNode)` instead of reading from
disk, and whose `derivedFrom` points at the source node. -/
def wrapFile (source : SourceFile) (transform : SourceFile → String)
    (extension : String) : DerivedFile :=
  { location := replaceExtension source.path extension
  , content := fun _ => transform source
  , derivedFrom := source }

namespace TypeScriptFile

/-- `static filetypes = ["ts", "tsx"]` (ts.ts line 19). -/
def filetypes : List String := ["ts", "tsx"]

/-- `static targets = ["js"]` (ts.ts line 20). -/
def targets : List String := ["js"]

/-- Model of `TypeScriptFile.create` (ts.ts lines 22-28): the node when the
requested file exists, otherwise `null`. -/
def create (w : TSWorld) (filePath : String) (cfg : PageSettings) : Option SourceFile :=
  if w.fsExists filePath then some { path := filePath } else none

/-- Model of the derivation method literally named `js` (ts.ts lines 30-34):
wrap the node with the TypeScript-to-JavaScript transform under target
extension `"js"`. -/
def js (w : TSWorld) (f : SourceFile) (cfg : PageSettings) : DerivedFile :=
  wrapFile f (fun g => tsToJs w g cfg) "js"

end TypeScriptFile

/-- A concrete configuration used in witnesses and counterexamples. -/
def s0 : PageSettings := { sourceDir := "/s", targetDir := "/t", ignorePaths := [] }

/-- A concrete configuration with one ignore path, for the html-variant
seeding witness. -/
def s1 : PageSettings := { sourceDir := "/s", targetDir := "/t", ignorePaths := ["/s/ig"] }

/-- A concrete world: the root node `"r"` depends on `"a"` then `"b"`; the
write of `"a"` throws while every other write succeeds; dependency
enumeration throws exactly at node `"d"`; the bootstrap write succeeds and
the resolver finds the root node `"r"`. -/
def w0 : World :=
  { writeOk := fun _ p => !(p == "a")
  , deps := fun _ p =>
      if p = "r" then some ["a", "b"] else if p = "d" then none else some []
  , rootWriteOk := fun _ => true
  , readFileOp := fun _ _ => some "r"
  , pathJoin := fun x y => x ++ y }

/-- The empty initial build state over `s0`. -/
def st0 : BuildState := { visited := [], writes := [], logs := [], settings := s0 }

/-- A concrete world with a two-node dependency cycle: `"A"` depends on
`"B"` and `"B"` depends on `"A"`; all writes succeed. -/
def wCyc : World :=
  { writeOk := fun _ _ => true
  , deps := fun _ p =>
      if p = "A" then some ["B"] else if p = "B" then some ["A"] else some []
  , rootWriteOk := fun _ => true
  , readFileOp := fun _ _ => some "A"
  , pathJoin := fun x y => x ++ y }

/-- A concrete TypeScript-handler world: only `"/x.ts"` exists on disk. -/
def tsw0 : TSWorld :=
  { transpile := fun s => "transpiled:" ++ s
  , fsExists := fun p => p == "/x.ts"
  , fsRead := fun p => "code:" ++ p }

/-- A node whose path is already in the visited set is skipped: the builder
returns with the state untouched and does not throw. -/
theorem build_mem_visited_noop (w : World) (fuel : Nat) (file : String) (st : BuildState)
    (h : file ∈ st.visited) : buildSiteFromFile w fuel file st = (st, false) := by
  cases fuel with
  | zero => simp [buildSiteFromFile]
  | succ n => simp [buildSiteFromFile, h]

/-- The dependency loop never changes the settings component when its step
does not. -/
theorem buildDeps_settings (step : String → BuildState → BuildState × Bool) (parent : String)
    (hstep : ∀ d st, (step d st).1.settings = st.settings) :
    ∀ (ds : List String) (st : BuildState),
      (buildDeps step parent ds st).settings = st.settings := by
  intro ds
  induction ds with
  | nil => intro st; simp [buildDeps]
  | cons d rest ih =>
    intro st
    simp only [buildDeps]
    rw [ih]
    by_cases hb : (step d st).2 <;> simp [hb, hstep]

/-- The graph builder never changes the settings component of the state. -/
theorem build_settings (w : World) :
    ∀ (fuel : Nat) (file : String) (st : BuildState),
      (buildSiteFromFile w fuel file st).1.settings = st.settings := by
  intro fuel
  induction fuel with
  | zero => intro file st; simp [buildSiteFromFile]
  | succ n ih =>
    intro file st
    by_cases hv : file ∈ st.visited
    · simp [buildSiteFromFile, hv]
    · simp only [buildSiteFromFile, hv, if_false]
      by_cases hw : w.writeOk st.settings file
      · cases hd : w.deps st.settings file with
        | none => simp [hw, hd]
        | some ds =>
          simp only [hw, hd, if_true]
          rw [buildDeps_settings _ _ (fun d st => ih d st)]
      · simp [hw]

/-- The dependency loop only grows the visited set when its step does. -/
theorem buildDeps_visited_mono (step : String → BuildState → BuildState × Bool) (parent : String)
    (hstep : ∀ d st, st.visited ⊆ (step d st).1.visited) :
    ∀ (ds : List String) (st : BuildState),
      st.visited ⊆ (buildDeps step parent ds st).visited := by
  intro ds
  induction ds with
  | nil => intro st; simp [buildDeps]
  | cons d rest ih =>
    intro st
    simp only [buildDeps]
    intro p hp
    apply ih
    by_cases hb : (step d st).2 <;> simp [hb] <;> exact hstep d st hp

/-- The graph builder only ever grows the visited set. -/
theorem build_visited_mono (w : World) :
    ∀ (fuel : Nat) (file : String) (st : BuildState),
      st.visited ⊆ (buildSiteFromFile w fuel file st).1.visited := by
  intro fuel
  induction fuel with
  | zero => intro file st; simp [buildSiteFromFile]
  | succ n ih =>
    intro file st
    by_cases hv : file ∈ st.visited
    · simp [buildSiteFromFile, hv]
    · simp only [buildSiteFromFile, hv, if_false]
      by_cases hw : w.writeOk st.settings file
      · cases hd : w.deps st.settings file with
        | none => simp [hw, hd]
        | some ds =>
          simp only [hw, hd, if_true]
          intro p hp
          exact buildDeps_visited_mono _ _ (fun d st => ih d st) ds _
            (List.mem_append_left _ hp)
      · simp [hw]

/-- Every write recorded by the dependency loop was already recorded on entry
or concerns a path that was unvisited on entry, when the step has the same
property. -/
theorem buildDeps_writes_src (step : String → BuildState → BuildState × Bool) (parent : String)
    (hmono : ∀ d st, st.visited ⊆ (step d st).1.visited)
    (hw : ∀ d st p, p ∈ (step d st).1.writes → p ∈ st.writes ∨ p ∉ st.visited) :
    ∀ (ds : List String) (st : BuildState) (p : String),
      p ∈ (buildDeps step parent ds st).writes → p ∈ st.writes ∨ p ∉ st.visited := by
  intro ds
  induction ds with
  | nil => intro st p hp; left; simpa [buildDeps] using hp
  | cons d rest ih =>
    intro st p hp
    simp only [buildDeps] at hp
    rcases ih _ p hp with h1 | h2
    · have hx : p ∈ (step d st).1.writes := by
        by_cases hb : (step d st).2
        · simpa [hb] using h1
        · simpa [hb] using h1
      exact hw d st p hx
    · right
      intro hmem
      apply h2
      by_cases hb : (step d st).2
      · simpa [hb] using hmono d st hmem
      · simpa [hb] using hmono d st hmem

/-- Every write the graph builder records was already recorded on entry or
concerns a path that was unvisited on entry: in particular a path seeded into
the visited set is never written. -/
theorem build_writes_src (w : World) :
    ∀ (fuel : Nat) (file : String) (st : BuildState) (p : String),
      p ∈ (buildSiteFromFile w fuel file st).1.writes → p ∈ st.writes ∨ p ∉ st.visited := by
  intro fuel
  induction fuel with
  | zero => intro file st p hp; left; simpa [buildSiteFromFile] using hp
  | succ n ih =>
    intro file st p hp
    by_cases hv : file ∈ st.visited
    · left; simpa [buildSiteFromFile, hv] using hp
    · simp only [buildSiteFromFile, hv, if_false] at hp
      by_cases hw : w.writeOk st.settings file
      · cases hd : w.deps st.settings file with
        | none =>
          simp only [hw, hd, if_true] at hp
          rcases List.mem_append.1 hp with h | h
          · exact Or.inl h
          · right; rw [List.mem_singleton] at h; subst h; exact hv
        | some ds =>
          simp only [hw, hd, if_true] at hp
          rcases buildDeps_writes_src _ _ (fun d st => build_visited_mono w n d st)
              (fun d st q => ih d st q) ds _ p hp with h | h
          · rcases List.mem_append.1 h with h1 | h1
            · exact Or.inl h1
            · right; rw [List.mem_singleton] at h1; subst h1; exact hv
          · right; intro hm; exact h (List.mem_append_left _ hm)
      · simp only [hw, if_false] at hp
        rcases List.mem_append.1 hp with h | h
        · exact Or.inl h
        · right; rw [List.mem_singleton] at h; subst h; exact hv

/-- The dependency loop preserves the duplicate-freedom invariant (visited
duplicate-free, write trace duplicate-free, every written path visited) when
its step preserves it. -/
theorem buildDeps_good (step : String → BuildState → BuildState × Bool) (parent : String)
    (hstep : ∀ d st, st.visited.Nodup → st.writes.Nodup → (∀ p ∈ st.writes, p ∈ st.visited) →
      (step d st).1.visited.Nodup ∧ (step d st).1.writes.Nodup ∧
        ∀ p ∈ (step d st).1.writes, p ∈ (step d st).1.visited) :
    ∀ (ds : List String) (st : BuildState),
      st.visited.Nodup → st.writes.Nodup → (∀ p ∈ st.writes, p ∈ st.visited) →
      (buildDeps step parent ds st).visited.Nodup ∧
        (buildDeps step parent ds st).writes.Nodup ∧
        ∀ p ∈ (buildDeps step parent ds st).writes,
          p ∈ (buildDeps step parent ds st).visited := by
  intro ds
  induction ds with
  | nil => intro st h1 h2 h3; simpa [buildDeps] using ⟨h1, h2, h3⟩
  | cons d rest ih =>
    intro st h1 h2 h3
    simp only [buildDeps]
    obtain ⟨g1, g2, g3⟩ := hstep d st h1 h2 h3
    by_cases hb : (step d st).2
    · simp only [hb, if_true]
      exact ih _ g1 g2 g3
    · simp only [hb, if_false]
      exact ih _ g1 g2 g3

/-- The graph builder preserves the duplicate-freedom invariant: starting
from a duplicate-free visited set and write trace in which every written path
is visited, both lists stay duplicate-free and every written path stays
visited. -/
theorem build_good (w : World) :
    ∀ (fuel : Nat) (file : String) (st : BuildState),
      st.visited.Nodup → st.writes.Nodup → (∀ p ∈ st.writes, p ∈ st.visited) →
      (buildSiteFromFile w fuel file st).1.visited.Nodup ∧
        (buildSiteFromFile w fuel file st).1.writes.Nodup ∧
        ∀ p ∈ (buildSiteFromFile w fuel file st).1.writes,
          p ∈ (buildSiteFromFile w fuel file st).1.visited := by
  intro fuel
  induction fuel with
  | zero => intro file st h1 h2 h3; simpa [buildSiteFromFile] using ⟨h1, h2, h3⟩
  | succ n ih =>
    intro file st h1 h2 h3
    by_cases hv : file ∈ st.visited
    · simpa [buildSiteFromFile, hv] using ⟨h1, h2, h3⟩
    · have hfw : file ∉ st.writes := fun hmem => hv (h3 file hmem)
      have g1 : (st.visited ++ [file]).Nodup := by
        simp [List.nodup_append, h1, hv]
      have g2 : (st.writes ++ [file]).Nodup := by
        simp [List.nodup_append, h2, hfw]
      have g3 : ∀ p ∈ st.writes ++ [file], p ∈ st.visited ++ [file] := by
        intro p hp
        rcases List.mem_append.1 hp with h | h
        · exact List.mem_append_left _ (h3 p h)
        · exact List.mem_append_right _ h
      have g3' : ∀ p, p ∈ st.writes ∨ p = file → p ∈ st.visited ∨ p = file :=
        fun p hp => hp.imp (h3 p) id
      simp only [buildSiteFromFile, hv, if_false]
      by_cases hw : w.writeOk st.settings file
      · cases hd : w.deps st.settings file with
        | none => simpa [hw, hd] using ⟨g1, g2, g3'⟩
        | some ds =>
          simp only [hw, hd, if_true]
          exact buildDeps_good _ _ (fun d st => ih d st) ds _ g1 g2 g3
      · simpa [hw] using ⟨g1, g2, g3'⟩

/-- Claim C1: if the root node's path is already in the visited set, the
builder returns immediately with the state untouched and nothing written;
otherwise the path is inserted into the visited set before `write` is
invoked, so even when the write fails (the call throws) the node is marked
visited, and any later call on the same path within the run returns
immediately — the node is never retried. -/
theorem buildSiteFromFile_visited_guard_and_mark_before_write
    (w : World) (fuel : Nat) (file : String) (st : BuildState) :
    (file ∈ st.visited → buildSiteFromFile w fuel file st = (st, false))
    ∧ (file ∉ st.visited → fuel ≠ 0 →
        file ∈ (buildSiteFromFile w fuel file st).1.visited
        ∧ (w.writeOk st.settings file = false →
            buildSiteFromFile w fuel file st
              = ({ st with
                     visited := st.visited ++ [file]
                     writes := st.writes ++ [file]
                     logs := st.logs ++ [LogEntry.writeFailed file] }, true))
        ∧ ∀ fuel2 : Nat,
            buildSiteFromFile w fuel2 file (buildSiteFromFile w fuel file st).1
              = ((buildSiteFromFile w fuel file st).1, false)) := by
  refine ⟨build_mem_visited_noop w fuel file st, ?_⟩
  intro hv hf
  obtain ⟨n, rfl⟩ : ∃ n, fuel = n + 1 := ⟨fuel - 1, by omega⟩
  have hmem : file ∈ (buildSiteFromFile w (n + 1) file st).1.visited := by
    simp only [buildSiteFromFile, hv, if_false]
    by_cases hw : w.writeOk st.settings file
    · cases hd : w.deps st.settings file with
      | none => simp [hw, hd]
      | some ds =>
        simp only [hw, hd, if_true]
        exact buildDeps_visited_mono _ _ (fun d st => build_visited_mono w n d st) ds _
          (List.mem_append_right _ (List.mem_singleton_self _))
    · simp [hw]
  refine ⟨hmem, ?_, fun fuel2 => build_mem_visited_noop w fuel2 file _ hmem⟩
  intro hwf
  simp [buildSiteFromFile, hv, hwf]

/-- Witness for C1: in the concrete world `w0`, the node `"a"` (whose write
fails) is marked visited, the call throws with exactly the write-failure
log, and an immediate retry is a no-op. -/
theorem buildSiteFromFile_visited_guard_and_mark_before_write_witness :
    "a" ∈ (buildSiteFromFile w0 5 "a" st0).1.visited
    ∧ buildSiteFromFile w0 5 "a" st0
        = ({ st0 with
               visited := st0.visited ++ ["a"]
               writes := st0.writes ++ ["a"]
               logs := st0.logs ++ [LogEntry.writeFailed "a"] }, true)
    ∧ buildSiteFromFile w0 2 "a" (buildSiteFromFile w0 5 "a" st0).1
        = ((buildSiteFromFile w0 5 "a" st0).1, false) := by
  have h := (buildSiteFromFile_visited_guard_and_mark_before_write w0 5 "a" st0).2
    (by decide) (by decide)
  exact ⟨h.1, h.2.1 (by decide), h.2.2 2⟩

/-- Counterexample to claim C2 as stated: in the concrete world `w0` the
root `"r"` has dependencies `"a"` and `"b"`, and `"a"`'s write fails — its
write is invoked (it appears in the trace) and throws, yet the top-level
call returns without error and the sibling `"b"` is still built after it:
the failure does not propagate to the top-level caller. -/
theorem write_failure_not_global_abort_cex :
    w0.writeOk st0.settings "a" = false
    ∧ (buildSiteFromFile w0 5 "r" st0).1.writes = ["r", "a", "b"]
    ∧ (buildSiteFromFile w0 5 "r" st0).2 = false := by decide

/-- Claim C2 (amended): a failure of a node's write aborts that node's own
processing — its dependencies are never enumerated — and the error
propagates out of that node's build call to its caller; at the top level a
thrown root build aborts `buildFromPath` (whose thrown flag is exactly the
root build's). When the failing node is a dependency, the caller is the
parent's catching recursion site, so the build as a whole continues. -/
theorem write_failure_aborts_node_and_propagates_to_caller
    (w : World) (fuel : Nat) (file : String) (st : BuildState)
    (hv : file ∉ st.visited) (hw : w.writeOk st.settings file = false) :
    buildSiteFromFile w (fuel + 1) file st
      = ({ st with
             visited := st.visited ++ [file]
             writes := st.writes ++ [file]
             logs := st.logs ++ [LogEntry.writeFailed file] }, true)
    ∧ ∀ (fuel2 : Nat) (settings : PageSettings) (dir : String),
        w.rootWriteOk settings = true →
        w.readFileOp (w.pathJoin settings.sourceDir "/index.html") (retargetedCfg w settings)
          = some dir →
        (buildFromPath w fuel2 settings).1.2
          = (buildSiteFromFile w fuel2 dir (initialBuildState w settings)).2 := by
  constructor
  · simp [buildSiteFromFile, hv, hw]
  · intro fuel2 settings dir hroot hread
    by_cases hb : (buildSiteFromFile w fuel2 dir (initialBuildState w settings)).2 <;>
      simp [buildFromPath, hroot, hread, hb]

/-- Witness for the amended C2: in `w0` the node `"a"` throws out of its own
build call, and `buildFromPath`'s thrown flag equals the root build's. -/
theorem write_failure_aborts_node_and_propagates_to_caller_witness :
    buildSiteFromFile w0 5 "a" st0
      = ({ st0 with
             visited := st0.visited ++ ["a"]
             writes := st0.writes ++ ["a"]
             logs := st0.logs ++ [LogEntry.writeFailed "a"] }, true)
    ∧ (buildFromPath w0 5 s0).1.2
        = (buildSiteFromFile w0 5 "r" (initialBuildState w0 s0)).2 := by
  have h := write_failure_aborts_node_and_propagates_to_caller w0 4 "a" st0
    (by decide) (by decide)
  exact ⟨h.1, h.2 5 s0 "r" (by decide) (by decide)⟩

/-- Claim C3: when a node's dependency enumeration throws, the builder
catches it, logs it with the node's path, treats the node as having no
further dependencies (the state shows no additional visits or writes), and
returns normally — the exception is not propagated to the caller. -/
theorem deps_failure_caught_logged_continue
    (w : World) (fuel : Nat) (file : String) (st : BuildState)
    (hv : file ∉ st.visited) (hw : w.writeOk st.settings file = true)
    (hd : w.deps st.settings file = none) :
    buildSiteFromFile w (fuel + 1) file st
      = ({ st with
             visited := st.visited ++ [file]
             writes := st.writes ++ [file]
             logs := st.logs ++ [LogEntry.depsEnumFailed file] }, false) := by
  simp [buildSiteFromFile, hv, hw, hd]

/-- Witness for C3: in `w0` the node `"d"`'s dependency enumeration throws;
the build logs it and continues without propagating. -/
theorem deps_failure_caught_logged_continue_witness :
    buildSiteFromFile w0 3 "d" st0
      = ({ st0 with
             visited := st0.visited ++ ["d"]
             writes := st0.writes ++ ["d"]
             logs := st0.logs ++ [LogEntry.depsEnumFailed "d"] }, false) :=
  deps_failure_caught_logged_continue w0 2 "d" st0 (by decide) (by decide) (by decide)

/-- Claim C4: a throw from the recursive build of one dependency is caught
at the parent's recursion site: the loop logs the failing dependency's path
together with the parent's path and proceeds to process every remaining
sibling (first conjunct, the loop steps past the failure into the rest of
the list); consequently a node whose own write succeeds never propagates an
error out of its build call, whatever its dependencies do (second
conjunct). -/
theorem dep_subtree_failure_caught_siblings_continue
    (w : World) (fuel : Nat) (parent d : String) (rest : List String)
    (st st' : BuildState)
    (hthrow : buildSiteFromFile w fuel d st = (st', true)) :
    buildDeps (buildSiteFromFile w fuel) parent (d :: rest) st
      = buildDeps (buildSiteFromFile w fuel) parent rest
          { st' with logs := st'.logs ++ [LogEntry.depFailed d parent] }
    ∧ ∀ (file : String) (st2 : BuildState), w.writeOk st2.settings file = true →
        (buildSiteFromFile w (fuel + 1) file st2).2 = false := by
  constructor
  · simp only [buildDeps, hthrow, if_true]
  · intro file st2 hW
    by_cases hv : file ∈ st2.visited
    · simp [buildSiteFromFile, hv]
    · simp only [buildSiteFromFile, hv, if_false]
      cases hd : w.deps st2.settings file with
      | none => simp [hW, hd]
      | some ds => simp [hW, hd]

/-- Witness for C4: in `w0`, dependency `"a"` of parent `"r"` throws; the
loop logs `depFailed "a" "r"` and continues with the sibling list `["b"]`,
and the root call (whose write succeeds) reports no error. -/
theorem dep_subtree_failure_caught_siblings_continue_witness :
    buildDeps (buildSiteFromFile w0 4) "r" ["a", "b"]
        { visited := ["r"], writes := ["r"], logs := [], settings := s0 }
      = buildDeps (buildSiteFromFile w0 4) "r" ["b"]
          { visited := ["r", "a"], writes := ["r", "a"],
            logs := [LogEntry.writeFailed "a", LogEntry.depFailed "a" "r"], settings := s0 }
    ∧ (buildSiteFromFile w0 5 "r" st0).2 = false := by
  have h := dep_subtree_failure_caught_siblings_continue w0 4 "r" "a" ["b"]
      { visited := ["r"], writes := ["r"], logs := [], settings := s0 }
      { visited := ["r", "a"], writes := ["r", "a"],
        logs := [LogEntry.writeFailed "a"], settings := s0 }
      (by decide)
  exact ⟨h.1, h.2 "r" st0 (by decide)⟩

/-- Claim C5: over any graph and any build run starting from a
duplicate-free visited set and write trace in which every written path is
already visited (as in the seeded initial state, where the trace is empty),
each distinct path occurs at most once in the final visited set and the
write operation is invoked at most once per path. -/
theorem visited_and_writes_nodup
    (w : World) (fuel : Nat) (file : String) (st : BuildState)
    (h1 : st.visited.Nodup) (h2 : st.writes.Nodup)
    (h3 : ∀ p ∈ st.writes, p ∈ st.visited) :
    (buildSiteFromFile w fuel file st).1.visited.Nodup ∧
      (buildSiteFromFile w fuel file st).1.writes.Nodup :=
  ⟨(build_good w fuel file st h1 h2 h3).1, (build_good w fuel file st h1 h2 h3).2.1⟩

/-- Witness for C5: the concrete `w0` run from the empty state has
duplicate-free visited and write lists. -/
theorem visited_and_writes_nodup_witness :
    (buildSiteFromFile w0 5 "r" st0).1.visited.Nodup ∧
      (buildSiteFromFile w0 5 "r" st0).1.writes.Nodup :=
  visited_and_writes_nodup w0 5 "r" st0 (by decide) (by decide) (by decide)

/-- Claim C6: on any dependency graph where `a` depends on `b` and `b`
depends back on `a` (a two-node cycle) and both writes succeed, the build
from `a` terminates — for every fuel of at least 3 the result is the same,
so the recursion is insensitive to extra fuel — and both nodes are built
exactly once, the final write trace being precisely `[a, b]`. -/
theorem cycle_terminates_builds_once
    (w : World) (a b : String) (s : PageSettings) (fuel : Nat)
    (hab : a ≠ b)
    (hwa : w.writeOk s a = true) (hwb : w.writeOk s b = true)
    (hda : w.deps s a = some [b]) (hdb : w.deps s b = some [a])
    (hfuel : 3 ≤ fuel) :
    buildSiteFromFile w fuel a { visited := [], writes := [], logs := [], settings := s }
      = ({ visited := [a, b], writes := [a, b], logs := [], settings := s }, false) := by
  obtain ⟨n, rfl⟩ : ∃ n, fuel = n + 3 := ⟨fuel - 3, by omega⟩
  simp [buildSiteFromFile, buildDeps, hwa, hwb, hda, hdb, hab, Ne.symm hab]

/-- Witness for C6: the concrete world `wCyc` with the cycle `A ↔ B`
terminates with fuel 3 and writes each node exactly once. -/
theorem cycle_terminates_builds_once_witness :
    buildSiteFromFile wCyc 3 "A" { visited := [], writes := [], logs := [], settings := s0 }
      = ({ visited := ["A", "B"], writes := ["A", "B"], logs := [], settings := s0 }, false) :=
  cycle_terminates_builds_once wCyc "A" "B" s0 3 (by decide) (by decide) (by decide)
    (by decide) (by decide) (by decide)

/-- Claim C7: the TypeScript handler claims exactly the extensions `"ts"`
and `"tsx"` and exactly the compile target `"js"`; its derivation operation
literally named `js` returns a derived node whose lazily-computed content
equals the TypeScript-to-JavaScript transform of the source node (and whose
provenance points back at it); its factory yields `none` when the requested
file does not exist and the node at the requested path when it does. -/
theorem typescript_handler_contract :
    TypeScriptFile.filetypes = ["ts", "tsx"]
    ∧ TypeScriptFile.targets = ["js"]
    ∧ (∀ (w : TSWorld) (f : SourceFile) (cfg : PageSettings),
        (TypeScriptFile.js w f cfg).content () = tsToJs w f cfg
        ∧ (TypeScriptFile.js w f cfg).derivedFrom = f)
    ∧ (∀ (w : TSWorld) (p : String) (cfg : PageSettings),
        (w.fsExists p = false → TypeScriptFile.create w p cfg = none)
        ∧ (w.fsExists p = true → TypeScriptFile.create w p cfg = some { path := p })) := by
  refine ⟨rfl, rfl, fun w f cfg => ⟨rfl, rfl⟩, fun w p cfg => ⟨?_, ?_⟩⟩
  · intro h; simp [TypeScriptFile.create, h]
  · intro h; simp [TypeScriptFile.create, h]

/-- Witness for C7: over the concrete filesystem `tsw0`, the factory finds
`"/x.ts"` and rejects `"/y.ts"`, and the derived `js` node's content is the
transpilation of the source's text. -/
theorem typescript_handler_contract_witness :
    (tsw0.fsExists "/x.ts" = true
      ∧ TypeScriptFile.create tsw0 "/x.ts" s0 = some { path := "/x.ts" })
    ∧ (tsw0.fsExists "/y.ts" = false
      ∧ TypeScriptFile.create tsw0 "/y.ts" s0 = none)
    ∧ (TypeScriptFile.js tsw0 { path := "/x.ts" } s0).content ()
        = tsToJs tsw0 { path := "/x.ts" } s0 :=
  ⟨⟨by decide, (typescript_handler_contract.2.2.2 tsw0 "/x.ts" s0).2 (by decide)⟩,
   ⟨by decide, (typescript_handler_contract.2.2.2 tsw0 "/y.ts" s0).1 (by decide)⟩,
   (typescript_handler_contract.2.2.1 tsw0 { path := "/x.ts" } s0).1⟩

/-- A path that `buildFromPath` seeds into the visited set is never among the
write invocations of the run it starts. -/
theorem buildFromPath_writes_not_seeded
    (w : World) (fuel : Nat) (settings : PageSettings) (p : String)
    (hp : p ∈ filePathsSeenSoFar settings) :
    p ∉ (buildFromPath w fuel settings).1.1.writes := by
  intro hmem
  by_cases hroot : w.rootWriteOk settings
  · cases hread : w.readFileOp (w.pathJoin settings.sourceDir "/index.html")
        (retargetedCfg w settings) with
    | none => simp [buildFromPath, hroot, hread] at hmem
    | some dir =>
      have hwr : (buildFromPath w fuel settings).1.1.writes
          = (buildSiteFromFile w fuel dir (initialBuildState w settings)).1.writes := by
        by_cases hb : (buildSiteFromFile w fuel dir (initialBuildState w settings)).2
        · simp [buildFromPath, hroot, hread, hb]
        · simp [buildFromPath, hroot, hread, hb]
      rw [hwr] at hmem
      rcases build_writes_src w fuel dir _ p hmem with h | h
      · simp [initialBuildState] at h
      · exact h (by simpa [initialBuildState] using hp)
  · simp [buildFromPath, hroot] at hmem

/-- Claim C8: the top-level build entry seeds the visited set with every
configured ignore path, the target directory's own path, and the `.git` and
`node_modules` directories under the source directory — and consequently the
graph builder never invokes a write for any seeded path during the run
`buildFromPath` starts. -/
theorem buildFromPath_seeds_and_never_writes_seeded
    (w : World) (fuel : Nat) (settings : PageSettings) :
    (∀ p ∈ settings.ignorePaths, p ∈ filePathsSeenSoFar settings)
    ∧ settings.targetDir ∈ filePathsSeenSoFar settings
    ∧ settings.sourceDir ++ "/.git" ∈ filePathsSeenSoFar settings
    ∧ settings.sourceDir ++ "/node_modules" ∈ filePathsSeenSoFar settings
    ∧ ∀ p ∈ filePathsSeenSoFar settings, p ∉ (buildFromPath w fuel settings).1.1.writes := by
  refine ⟨?_, ?_, ?_, ?_, fun p hp => buildFromPath_writes_not_seeded w fuel settings p hp⟩
  · intro p hp
    exact List.mem_append_left _ (List.mem_append_left _ hp)
  · simp [filePathsSeenSoFar]
  · simp [filePathsSeenSoFar]
  · simp [filePathsSeenSoFar]

/-- Witness for C8: in the concrete configuration `s0`, the target directory
is seeded and is never written by the run `buildFromPath` starts. -/
theorem buildFromPath_seeds_and_never_writes_seeded_witness :
    s0.targetDir ∈ filePathsSeenSoFar s0
    ∧ s0.targetDir ∉ (buildFromPath w0 5 s0).1.1.writes :=
  ⟨(buildFromPath_seeds_and_never_writes_seeded w0 5 s0).2.1,
   (buildFromPath_seeds_and_never_writes_seeded w0 5 s0).2.2.2.2 s0.targetDir
     (buildFromPath_seeds_and_never_writes_seeded w0 5 s0).2.1⟩

/-- Claim C9: neither the graph builder nor the top-level build entry ever
mutates the configuration passed to it: the builder's state carries the
settings object unchanged through the whole recursion, `buildFromPath`
returns its settings argument unchanged, and the output retargeting is done
on the fresh copy `retargetedCfg` — the configuration the builder ends up
holding — not on the caller's object. -/
theorem settings_never_mutated (w : World) :
    (∀ (fuel : Nat) (file : String) (st : BuildState),
        (buildSiteFromFile w fuel file st).1.settings = st.settings)
    ∧ (∀ (fuel : Nat) (settings : PageSettings),
        (buildFromPath w fuel settings).2 = settings)
    ∧ (∀ (fuel : Nat) (settings : PageSettings) (dir : String),
        w.rootWriteOk settings = true →
        w.readFileOp (w.pathJoin settings.sourceDir "/index.html") (retargetedCfg w settings)
          = some dir →
        (buildFromPath w fuel settings).1.1.settings = retargetedCfg w settings) := by
  refine ⟨build_settings w, ?_, ?_⟩
  · intro fuel settings
    by_cases hroot : w.rootWriteOk settings
    · cases hread : w.readFileOp (w.pathJoin settings.sourceDir "/index.html")
          (retargetedCfg w settings) with
      | none => simp [buildFromPath, hroot, hread]
      | some dir =>
        by_cases hb : (buildSiteFromFile w fuel dir (initialBuildState w settings)).2 <;>
          simp [buildFromPath, hroot, hread, hb]
    · simp [buildFromPath, hroot]
  · intro fuel settings dir hroot hread
    have hpres := build_settings w fuel dir (initialBuildState w settings)
    have hinit : (initialBuildState w settings).settings = retargetedCfg w settings := rfl
    have hwr : (buildFromPath w fuel settings).1.1.settings
        = (buildSiteFromFile w fuel dir (initialBuildState w settings)).1.settings := by
      by_cases hb : (buildSiteFromFile w fuel dir (initialBuildState w settings)).2
      · simp [buildFromPath, hroot, hread, hb]
      · simp [buildFromPath, hroot, hread, hb]
    rw [hwr, hpres, hinit]

/-- Witness for C9: in the concrete run over `w0` and `s0`, the builder's
settings survive unchanged, `buildFromPath` hands back its configuration,
and the builder's final configuration is the retargeted copy. -/
theorem settings_never_mutated_witness :
    (buildSiteFromFile w0 5 "r" st0).1.settings = st0.settings
    ∧ (buildFromPath w0 5 s0).2 = s0
    ∧ (buildFromPath w0 5 s0).1.1.settings = retargetedCfg w0 s0 :=
  ⟨(settings_never_mutated w0).1 5 "r" st0,
   (settings_never_mutated w0).2.1 5 s0,
   (settings_never_mutated w0).2.2 5 s0 "r" (by decide) (by decide)⟩

/-- Claim C10: beyond the seeding the spec states, `buildFromPath` also
seeds the `".html"`-suffixed variant of every configured ignore path, the
`".html"`-suffixed variant of the target directory, and the target
directory's `"/index.html"` path, so the HTML-derived counterparts of
ignored paths are never written by the run it starts either. -/
theorem buildFromPath_seeds_html_variants
    (w : World) (fuel : Nat) (settings : PageSettings) :
    (∀ p ∈ settings.ignorePaths, p ++ ".html" ∈ filePathsSeenSoFar settings)
    ∧ settings.targetDir ++ ".html" ∈ filePathsSeenSoFar settings
    ∧ settings.targetDir ++ "/index.html" ∈ filePathsSeenSoFar settings
    ∧ ∀ p ∈ settings.ignorePaths,
        p ++ ".html" ∉ (buildFromPath w fuel settings).1.1.writes := by
  have hm : ∀ p ∈ settings.ignorePaths, p ++ ".html" ∈ filePathsSeenSoFar settings := by
    intro p hp
    exact List.mem_append_left _
      (List.mem_append_right _ (List.mem_map_of_mem _ hp))
  refine ⟨hm, ?_, ?_, fun p hp =>
    buildFromPath_writes_not_seeded w fuel settings _ (hm p hp)⟩
  · simp [filePathsSeenSoFar]
  · simp [filePathsSeenSoFar]

/-- Witness for C10: in the configuration `s1` with ignore path `"/s/ig"`,
the variant `"/s/ig.html"` is seeded and never written by the run. -/
theorem buildFromPath_seeds_html_variants_witness :
    "/s/ig" ++ ".html" ∈ filePathsSeenSoFar s1
    ∧ "/s/ig" ++ ".html" ∉ (buildFromPath w0 5 s1).1.1.writes :=
  ⟨(buildFromPath_seeds_html_variants w0 5 s1).1 "/s/ig" (by decide),
   (buildFromPath_seeds_html_variants w0 5 s1).2.2.2 "/s/ig" (by decide)⟩

end Quine
